import Mathlib

/-!
Shallow embedding of `c10::impl::PyObjectSlot`
(source file: `c10/core/impl/PyObjectSlot.cpp`).

The slot holds two atomic fields:
  * `pyobj_interpreter_` — a nullable pointer to the bound `PyInterpreter`
    (modelled as `Option Nat`, the `Nat` being the interpreter's identity);
  * `pyobj_` — a 64-bit packed word (`uintptr_t`): bits 1..63 are the
    address of the `PyObject`, bit 0 is the `owns_pyobj` flag
    (modelled as `Nat`, with the 64-bit range carried as a hypothesis
    `pyobj_ < 2^64` where it matters).

The five member functions defined in the `.cpp` file are modelled as pure
functions on this state.  `maybe_destroy_pyobj` can fire a fatal
`TORCH_INTERNAL_ASSERT`, modelled with `Except String`; on success it
returns the new state together with the list of `decref` calls it issued
on the bound interpreter (each recorded with its arguments).
-/

namespace PyObjectSlotModel

/-- The 64-bit mask `~0x1ULL` used by `_unchecked_untagged_pyobj` and
`set_owns_pyobj` to clear the ownership bit (bit 0). -/
def NOT_ONE_MASK : Nat := 2 ^ 64 - 2

/-- State of a `PyObjectSlot`: the atomic interpreter pointer and the
atomic packed `pyobj_` word. -/
structure PyObjectSlot where
  pyobj_interpreter_ : Option Nat
  pyobj_ : Nat
deriving DecidableEq, Repr

/-- A recorded call `(*pyobj_interpreter_)->decref(addr, has_pyobj_slot)`:
which interpreter received the call and with which arguments. -/
structure DecrefCall where
  interp : Nat
  addr : Nat
  has_pyobj_slot : Bool
deriving DecidableEq, Repr

/-- `PyObjectSlot::PyObjectSlot() : pyobj_interpreter_(nullptr), pyobj_(0)`. -/
def initSlot : PyObjectSlot := ⟨none, 0⟩

/-- `bool PyObjectSlot::owns_pyobj()`:
`return (pyobj_.load(acquire) & 1) != 0;`. -/
def PyObjectSlot.owns_pyobj (s : PyObjectSlot) : Bool :=
  (s.pyobj_ &&& 1) != 0

/-- `PyObject* PyObjectSlot::_unchecked_untagged_pyobj() const`:
`return reinterpret_cast<PyObject*>(pyobj_.load(acquire) & ~0x1ULL);`. -/
def PyObjectSlot.unchecked_untagged_pyobj (s : PyObjectSlot) : Nat :=
  s.pyobj_ &&& NOT_ONE_MASK

/-- `PyInterpreter* PyObjectSlot::pyobj_interpreter()`:
`return pyobj_interpreter_.load(acquire);`. -/
def PyObjectSlot.pyobj_interpreter (s : PyObjectSlot) : Option Nat :=
  s.pyobj_interpreter_

/-- `PyInterpreter& PyObjectSlot::load_pyobj_interpreter() const`:
returns the bound interpreter, or raises the recoverable `TORCH_CHECK`
error when `pyobj_interpreter_` is null. -/
def PyObjectSlot.load_pyobj_interpreter (s : PyObjectSlot) : Except String Nat :=
  match s.pyobj_interpreter_ with
  | some interpreter => .ok interpreter
  | none => .error "cannot access PyObject for Tensor - no interpreter set"

/-- `void PyObjectSlot::set_owns_pyobj(bool b)`: the sequential effect of
the compare-and-swap retry loop
`value = (expected & ~0x1ULL) | (b ? 1 : 0);`. -/
def PyObjectSlot.set_owns_pyobj (s : PyObjectSlot) (b : Bool) : PyObjectSlot :=
  { s with pyobj_ := (s.pyobj_ &&& NOT_ONE_MASK) ||| (if b then 1 else 0) }

/-- `void PyObjectSlot::maybe_destroy_pyobj()` (the body of the destructor):
if `owns_pyobj()`, assert `pyobj_interpreter_ != nullptr` and `pyobj_ != 0`
(fatal `TORCH_INTERNAL_ASSERT`, modelled as `.error`), call
`decref(_unchecked_untagged_pyobj(), /*has_pyobj_slot*/ true)` on the bound
interpreter, then `pyobj_.store(0, relaxed)`; otherwise do nothing. -/
def PyObjectSlot.maybe_destroy_pyobj (s : PyObjectSlot) :
    Except String (PyObjectSlot × List DecrefCall) :=
  if s.owns_pyobj then
    match s.pyobj_interpreter_ with
    | none => .error "INTERNAL ASSERT FAILED: pyobj_interpreter_ != nullptr"
    | some interpreter =>
      if s.pyobj_ = 0 then
        .error "INTERNAL ASSERT FAILED: pyobj_ != 0"
      else
        .ok ({ s with pyobj_ := 0 },
             [⟨interpreter, s.unchecked_untagged_pyobj, true⟩])
  else
    .ok (s, [])

/-- The operations `PyObjectSlot.cpp` defines on a slot, as trace labels. -/
inductive SlotOp where
  | opMaybeDestroyPyobj : SlotOp
  | opPyobjInterpreter : SlotOp
  | opUncheckedUntaggedPyobj : SlotOp
  | opLoadPyobjInterpreter : SlotOp
  | opOwnsPyobj : SlotOp
  | opSetOwnsPyobj (b : Bool) : SlotOp
deriving DecidableEq, Repr

/-- One step of the slot: run a single operation from the `.cpp` unit,
returning the successor state and the `decref` calls it issued, or the
error it raised.  The four read-only operations leave the state unchanged
and issue no calls. -/
def stepOp (s : PyObjectSlot) : SlotOp → Except String (PyObjectSlot × List DecrefCall)
  | .opMaybeDestroyPyobj => s.maybe_destroy_pyobj
  | .opPyobjInterpreter => .ok (s, [])
  | .opUncheckedUntaggedPyobj => .ok (s, [])
  | .opLoadPyobjInterpreter =>
      match s.load_pyobj_interpreter with
      | .ok _ => .ok (s, [])
      | .error e => .error e
  | .opOwnsPyobj => .ok (s, [])
  | .opSetOwnsPyobj b => .ok (s.set_owns_pyobj b, [])

/-- Run a sequence of slot operations from a given state, accumulating all
`decref` calls issued, stopping at the first fatal assertion. -/
def runOps (s : PyObjectSlot) : List SlotOp → Except String (PyObjectSlot × List DecrefCall)
  | [] => .ok (s, [])
  | op :: rest =>
    match stepOp s op with
    | .error e => .error e
    | .ok (s₁, calls₁) =>
      match runOps s₁ rest with
      | .error e => .error e
      | .ok (s₂, calls₂) => .ok (s₂, calls₁ ++ calls₂)

example : (initSlot.set_owns_pyobj true).pyobj_ = 1 := by decide
example : (⟨some 7, 0x1000⟩ : PyObjectSlot).set_owns_pyobj true =
    (⟨some 7, 0x1001⟩ : PyObjectSlot) := by decide
example : (⟨some 7, 0x1001⟩ : PyObjectSlot).maybe_destroy_pyobj =
    .ok (⟨some 7, 0⟩, [⟨7, 0x1000, true⟩]) := rfl
example : (⟨some 7, 0x1000⟩ : PyObjectSlot).maybe_destroy_pyobj =
    .ok (⟨some 7, 0x1000⟩, []) := rfl
example : (⟨none, 5⟩ : PyObjectSlot).maybe_destroy_pyobj =
    .error "INTERNAL ASSERT FAILED: pyobj_interpreter_ != nullptr" := rfl
example : (⟨some 7, 1⟩ : PyObjectSlot).maybe_destroy_pyobj =
    .ok (⟨some 7, 0⟩, [⟨7, 0, true⟩]) := rfl

/-! ### Bit-level helper lemmas about the mask `~0x1ULL` -/

theorem testBit_NOT_ONE_MASK (i : Nat) :
    NOT_ONE_MASK.testBit i = (decide (0 < i) && decide (i < 64)) := by
  match i with
  | 0 => decide
  | n + 1 =>
    have hmask : NOT_ONE_MASK = 2 * (2 ^ 63 - 1) := by decide
    rw [hmask, Nat.testBit_add_one, Nat.mul_div_cancel_left _ (by norm_num),
      Nat.testBit_two_pow_sub_one]
    simp only [Nat.succ_pos, decide_True, Bool.true_and]
    have h63 : n < 63 ↔ n + 1 < 64 := by omega
    simp [h63]

theorem testBit_owned_bit (b : Bool) (i : Nat) :
    (if b then 1 else 0 : Nat).testBit i = (b && decide (i = 0)) := by
  cases b <;> match i with
  | 0 => decide
  | n + 1 => simp [Nat.testBit_add_one]

/-- The word written by `set_owns_pyobj`, bit by bit: the ownership bit
becomes `b`, every other bit below 64 is copied from `w`, and bits from 64
upwards are cleared (they do not exist on a 64-bit `uintptr_t`). -/
theorem testBit_set_word (w : Nat) (b : Bool) (i : Nat) :
    ((w &&& NOT_ONE_MASK) ||| (if b then 1 else 0)).testBit i =
      if i = 0 then b else (w.testBit i && decide (i < 64)) := by
  rw [Nat.testBit_or, Nat.testBit_and, testBit_NOT_ONE_MASK, testBit_owned_bit]
  match i with
  | 0 => simp
  | n + 1 => simp [Nat.succ_pos]

theorem testBit_untagged (w : Nat) (i : Nat) :
    (w &&& NOT_ONE_MASK).testBit i = (w.testBit i && (decide (0 < i) && decide (i < 64))) := by
  rw [Nat.testBit_and, testBit_NOT_ONE_MASK]

/-- Masking with `~0x1ULL` clears the ownership bit. -/
theorem untagged_even (w : Nat) : (w &&& NOT_ONE_MASK) % 2 = 0 := by
  have h := testBit_untagged w 0
  have h2 : ¬((w &&& NOT_ONE_MASK) % 2 = 1) := by simpa using h
  omega

/-- A 64-bit word decomposes as its masked address bits or-ed with its
ownership bit. -/
theorem word_decomp (w : Nat) (hw : w < 2 ^ 64) :
    (w &&& NOT_ONE_MASK) ||| (w &&& 1) = w := by
  apply Nat.eq_of_testBit_eq
  intro i
  rw [Nat.testBit_or, testBit_untagged, Nat.testBit_and]
  match i with
  | 0 => simp
  | n + 1 =>
    have h1 : (1 : Nat).testBit (n + 1) = false :=
      Nat.testBit_lt_two_pow (by have := Nat.one_lt_two_pow_iff (n := n + 1); omega)
    rw [h1]
    simp only [Nat.succ_pos, decide_True, Bool.true_and, Bool.and_false, Bool.or_false]
    by_cases h64 : n + 1 < 64
    · simp [h64]
    · have : w.testBit (n + 1) = false :=
        Nat.testBit_lt_two_pow (lt_of_lt_of_le hw (Nat.pow_le_pow_right (by norm_num) (by omega)))
      simp [h64, this]

/-- If the ownership bit of `w` is set then `w` is non-zero. -/
theorem ne_zero_of_owned (w : Nat) (h : w &&& 1 ≠ 0) : w ≠ 0 := by
  intro h0
  subst h0
  simp at h

/-- Bits above bit 0 of the word written by `set_owns_pyobj` agree with the
old word, given that the old word fits in 64 bits. -/
theorem set_word_testBit_high (w : Nat) (b : Bool) (hw : w < 2 ^ 64)
    (i : Nat) (hi : 0 < i) :
    ((w &&& NOT_ONE_MASK) ||| (if b then 1 else 0)).testBit i = w.testBit i := by
  rw [testBit_set_word]
  rw [if_neg (by omega)]
  by_cases h64 : i < 64
  · simp [h64]
  · have hhi : w.testBit i = false :=
      Nat.testBit_lt_two_pow
        (lt_of_lt_of_le hw (Nat.pow_le_pow_right (by norm_num) (by omega)))
    simp [h64, hhi]

/-- Bits above bit 0 of the masked word agree with the unmasked word, given
that the word fits in 64 bits. -/
theorem untagged_testBit_high (w : Nat) (hw : w < 2 ^ 64) (i : Nat) (hi : 0 < i) :
    (w &&& NOT_ONE_MASK).testBit i = w.testBit i := by
  rw [testBit_untagged]
  by_cases h64 : i < 64
  · simp [hi, h64]
  · have hhi : w.testBit i = false :=
      Nat.testBit_lt_two_pow
        (lt_of_lt_of_le hw (Nat.pow_le_pow_right (by norm_num) (by omega)))
    simp [hhi]

/-! ### Helper lemmas about the slot operations -/

/-- With the ownership flag set, the packed word is non-zero (bit 0 is 1). -/
theorem pyobj_ne_zero_of_owns (s : PyObjectSlot) (h : s.owns_pyobj = true) :
    s.pyobj_ ≠ 0 := by
  unfold PyObjectSlot.owns_pyobj at h
  intro h0
  rw [h0] at h
  simp at h

/-- A slot whose packed word is zero does not own its `PyObject`. -/
theorem owns_of_zero_word (s : PyObjectSlot) (h : s.pyobj_ = 0) :
    s.owns_pyobj = false := by
  unfold PyObjectSlot.owns_pyobj
  rw [h]
  rfl

/-- A non-owning slot's teardown does nothing: no assertion, no `decref`. -/
theorem maybe_destroy_not_owning (s : PyObjectSlot) (h : s.owns_pyobj = false) :
    s.maybe_destroy_pyobj = .ok (s, []) := by
  unfold PyObjectSlot.maybe_destroy_pyobj
  rw [h]
  rfl

/-- An owning slot with a bound interpreter tears down: one `decref` with the
untagged address and `has_pyobj_slot = true`, then the word is stored 0. -/
theorem maybe_destroy_owning (s : PyObjectSlot) (i : Nat)
    (h : s.owns_pyobj = true) (hi : s.pyobj_interpreter_ = some i) :
    s.maybe_destroy_pyobj =
      .ok ({ s with pyobj_ := 0 }, [⟨i, s.unchecked_untagged_pyobj, true⟩]) := by
  have hne := pyobj_ne_zero_of_owns s h
  unfold PyObjectSlot.maybe_destroy_pyobj
  rw [h, hi]
  simp [hne]

/-- An owning slot with no bound interpreter fails the first internal
assertion. -/
theorem maybe_destroy_unbound (s : PyObjectSlot)
    (h : s.owns_pyobj = true) (hi : s.pyobj_interpreter_ = none) :
    s.maybe_destroy_pyobj =
      .error "INTERNAL ASSERT FAILED: pyobj_interpreter_ != nullptr" := by
  unfold PyObjectSlot.maybe_destroy_pyobj
  rw [h, hi]
  rfl

/-- Full case analysis of a successful `maybe_destroy_pyobj`. -/
theorem maybe_destroy_spec (s s' : PyObjectSlot) (calls : List DecrefCall)
    (h : s.maybe_destroy_pyobj = .ok (s', calls)) :
    (s.owns_pyobj = false ∧ s' = s ∧ calls = []) ∨
    (s.owns_pyobj = true ∧ ∃ i, s.pyobj_interpreter_ = some i ∧
      s' = { s with pyobj_ := 0 } ∧
      calls = [⟨i, s.unchecked_untagged_pyobj, true⟩]) := by
  cases ho : s.owns_pyobj with
  | false =>
    left
    rw [maybe_destroy_not_owning s ho] at h
    cases h
    exact ⟨rfl, rfl, rfl⟩
  | true =>
    right
    refine ⟨rfl, ?_⟩
    cases hi : s.pyobj_interpreter_ with
    | none =>
      rw [maybe_destroy_unbound s ho hi] at h
      cases h
    | some i =>
      rw [maybe_destroy_owning s i ho hi] at h
      cases h
      exact ⟨i, rfl, by rw [hi], rfl⟩

/-- After any successful `maybe_destroy_pyobj` the slot no longer owns: the
owning branch stored 0 into the word, the other branch never owned. -/
theorem maybe_destroy_ok_not_owning (s s' : PyObjectSlot) (calls : List DecrefCall)
    (h : s.maybe_destroy_pyobj = .ok (s', calls)) : s'.owns_pyobj = false := by
  rcases maybe_destroy_spec s s' calls h with ⟨ho, hs, _⟩ | ⟨_, i, _, hs, _⟩
  · rw [hs]; exact ho
  · rw [hs]; exact owns_of_zero_word _ rfl

/-- Every operation of the unit leaves `pyobj_interpreter_` unchanged. -/
theorem stepOp_preserves_interpreter (s s' : PyObjectSlot) (op : SlotOp)
    (calls : List DecrefCall) (h : stepOp s op = .ok (s', calls)) :
    s'.pyobj_interpreter_ = s.pyobj_interpreter_ := by
  cases op with
  | opMaybeDestroyPyobj =>
    rcases maybe_destroy_spec s s' calls h with ⟨_, hs, _⟩ | ⟨_, i, _, hs, _⟩ <;>
      rw [hs]
  | opPyobjInterpreter => cases h; rfl
  | opUncheckedUntaggedPyobj => cases h; rfl
  | opLoadPyobjInterpreter =>
    unfold stepOp at h
    cases hl : s.load_pyobj_interpreter with
    | ok i => rw [hl] at h; cases h; rfl
    | error e => rw [hl] at h; cases h
  | opOwnsPyobj => cases h; rfl
  | opSetOwnsPyobj b => cases h; rfl

/-- Invert one successful step of `runOps` on a non-empty list. -/
theorem runOps_cons_ok (s s' : PyObjectSlot) (op : SlotOp) (rest : List SlotOp)
    (calls : List DecrefCall) (h : runOps s (op :: rest) = .ok (s', calls)) :
    ∃ s₁ calls₁ calls₂, stepOp s op = .ok (s₁, calls₁) ∧
      runOps s₁ rest = .ok (s', calls₂) ∧ calls = calls₁ ++ calls₂ := by
  unfold runOps at h
  split at h
  · cases h
  · split at h
    · cases h
    · cases h
      rename_i s₁ calls₁ heq₁ s₂ calls₂ heq₂
      exact ⟨s₁, calls₁, calls₂, heq₁, heq₂, rfl⟩

/-- A whole run of operations leaves `pyobj_interpreter_` unchanged. -/
theorem runOps_preserves_interpreter (ops : List SlotOp) :
    ∀ s s' calls, runOps s ops = .ok (s', calls) →
      s'.pyobj_interpreter_ = s.pyobj_interpreter_ := by
  induction ops with
  | nil =>
    intro s s' calls h
    cases h
    rfl
  | cons op rest ih =>
    intro s s' calls h
    obtain ⟨s₁, calls₁, calls₂, hstep, hrest, -⟩ :=
      runOps_cons_ok s s' op rest calls h
    rw [ih s₁ s' calls₂ hrest, stepOp_preserves_interpreter s s₁ op calls₁ hstep]

/-- Operations other than `maybe_destroy_pyobj` never issue a `decref`. -/
theorem stepOp_no_destroy_no_calls (s s' : PyObjectSlot) (op : SlotOp)
    (calls : List DecrefCall) (hop : op ≠ SlotOp.opMaybeDestroyPyobj)
    (h : stepOp s op = .ok (s', calls)) : calls = [] := by
  cases op with
  | opMaybeDestroyPyobj => exact absurd rfl hop
  | opPyobjInterpreter => cases h; rfl
  | opUncheckedUntaggedPyobj => cases h; rfl
  | opLoadPyobjInterpreter =>
    unfold stepOp at h
    cases hl : s.load_pyobj_interpreter with
    | ok i => rw [hl] at h; cases h; rfl
    | error e => rw [hl] at h; cases h
  | opOwnsPyobj => cases h; rfl
  | opSetOwnsPyobj b => cases h; rfl

/-- A run of operations that never invokes `maybe_destroy_pyobj` issues no
`decref` at all. -/
theorem runOps_no_destroy_no_calls (ops : List SlotOp)
    (hops : ∀ op ∈ ops, op ≠ SlotOp.opMaybeDestroyPyobj) :
    ∀ s s' calls, runOps s ops = .ok (s', calls) → calls = [] := by
  induction ops with
  | nil =>
    intro s s' calls h
    cases h
    rfl
  | cons op rest ih =>
    intro s s' calls h
    obtain ⟨s₁, calls₁, calls₂, hstep, hrest, hc⟩ :=
      runOps_cons_ok s s' op rest calls h
    have h1 : calls₁ = [] :=
      stepOp_no_destroy_no_calls s s₁ op calls₁ (hops op (by simp)) hstep
    have h2 : calls₂ = [] :=
      ih (fun o ho => hops o (by simp [ho])) s₁ s' calls₂ hrest
    rw [hc, h1, h2]
    rfl

/-! ### Claim theorems -/

/-- C1: Run-once teardown.  For any sequence of slot operations (none of
them the destructor) ending in destruction, the interpreter `decref` is
invoked at most once per slot instance — never at all when `owns_pyobj()`
is false at destruction time (the bound `if owns then 1 else 0` makes both
readings one statement) — and because the owning teardown stores 0 into
`pyobj_`, a second (incorrect) invocation of `maybe_destroy_pyobj` on the
resulting state invokes `decref` zero further times. -/
theorem C1_run_once_teardown (s s₁ s₂ : PyObjectSlot) (ops : List SlotOp)
    (calls₁ calls₂ : List DecrefCall)
    (hops : ∀ op ∈ ops, op ≠ SlotOp.opMaybeDestroyPyobj)
    (hrun : runOps s ops = .ok (s₁, calls₁))
    (hdes : s₁.maybe_destroy_pyobj = .ok (s₂, calls₂)) :
    calls₁ = [] ∧
    calls₂.length ≤ (if s₁.owns_pyobj then 1 else 0) ∧
    s₂.maybe_destroy_pyobj = .ok (s₂, []) := by
  refine ⟨runOps_no_destroy_no_calls ops hops s s₁ calls₁ hrun, ?_, ?_⟩
  · rcases maybe_destroy_spec s₁ s₂ calls₂ hdes with ⟨ho, _, hc⟩ | ⟨ho, i, _, _, hc⟩
    · rw [ho, hc]
      simp
    · rw [ho, hc]
      simp
  · exact maybe_destroy_not_owning s₂ (maybe_destroy_ok_not_owning s₁ s₂ calls₂ hdes)

/-- Witness for C1 at a concrete run: bind interpreter 7, word `0x1000`,
set the ownership flag, then destroy. -/
theorem C1_run_once_teardown_witness :
    ([] : List DecrefCall) = [] ∧
    ([(⟨7, 0x1000, true⟩ : DecrefCall)]).length ≤
      (if (⟨some 7, 0x1001⟩ : PyObjectSlot).owns_pyobj then 1 else 0) ∧
    (⟨some 7, 0⟩ : PyObjectSlot).maybe_destroy_pyobj = .ok (⟨some 7, 0⟩, []) :=
  C1_run_once_teardown ⟨some 7, 0x1000⟩ ⟨some 7, 0x1001⟩ ⟨some 7, 0⟩
    [SlotOp.opSetOwnsPyobj true] [] [⟨7, 0x1000, true⟩] (by decide) rfl rfl

/-- C2 counterexample: with the ownership flag set (bit 0 of the word),
the address bits all zero (word = 1) and a bound interpreter, the claim
says teardown must fail the assertion; in fact both internal assertions
pass (the asserted word is 1 ≠ 0) and `decref` is invoked with the null
untagged address. -/
theorem C2_counterexample :
    (⟨some 0, 1⟩ : PyObjectSlot).owns_pyobj = true ∧
    (⟨some 0, 1⟩ : PyObjectSlot).unchecked_untagged_pyobj = 0 ∧
    (⟨some 0, 1⟩ : PyObjectSlot).maybe_destroy_pyobj =
      .ok (⟨some 0, 0⟩, [⟨0, 0, true⟩]) :=
  ⟨rfl, rfl, rfl⟩

/-- C2 (amended): whenever `maybe_destroy_pyobj` runs with the ownership
flag set, the word asserted non-zero is the whole packed handle (which the
set flag bit makes non-zero automatically), and the only assertion that can
fail is the bound-capability one: with no interpreter bound it fails
fatally, and with one bound it proceeds to call `decref` — with the
untagged address, zero or not. -/
theorem C2_teardown_assertion_amended (s : PyObjectSlot)
    (h : s.owns_pyobj = true) :
    s.pyobj_ ≠ 0 ∧
    s.maybe_destroy_pyobj =
      (match s.pyobj_interpreter_ with
       | none => .error "INTERNAL ASSERT FAILED: pyobj_interpreter_ != nullptr"
       | some interpreter =>
           .ok ({ s with pyobj_ := 0 },
                [⟨interpreter, s.unchecked_untagged_pyobj, true⟩])) := by
  refine ⟨pyobj_ne_zero_of_owns s h, ?_⟩
  cases hi : s.pyobj_interpreter_ with
  | none => rw [maybe_destroy_unbound s h hi]
  | some i =>
    rw [maybe_destroy_owning s i h hi, hi]

/-- Witness for the amended C2 at the concrete owning state with a bound
interpreter (5) and word `0x2001`. -/
theorem C2_teardown_assertion_amended_witness :
    (⟨some 5, 0x2001⟩ : PyObjectSlot).pyobj_ ≠ 0 ∧
    (⟨some 5, 0x2001⟩ : PyObjectSlot).maybe_destroy_pyobj =
      (match (⟨some 5, 0x2001⟩ : PyObjectSlot).pyobj_interpreter_ with
       | none => .error "INTERNAL ASSERT FAILED: pyobj_interpreter_ != nullptr"
       | some interpreter =>
           .ok ({ (⟨some 5, 0x2001⟩ : PyObjectSlot) with pyobj_ := 0 },
                [⟨interpreter,
                  (⟨some 5, 0x2001⟩ : PyObjectSlot).unchecked_untagged_pyobj,
                  true⟩])) :=
  C2_teardown_assertion_amended ⟨some 5, 0x2001⟩ (by decide)

/-- C3: `set_owns_pyobj b` updates only the ownership bit: every bit above
bit 0 of the handle word is unchanged, bit 0 becomes `b`, a subsequent
`owns_pyobj()` returns `b`, and a subsequent `_unchecked_untagged_pyobj()`
returns the same address as before the call. -/
theorem C3_set_owns_pyobj_only_flag_bit (s : PyObjectSlot) (b : Bool) (i : Nat)
    (hw : s.pyobj_ < 2 ^ 64) (hi : 0 < i) :
    ((s.set_owns_pyobj b).pyobj_).testBit i = (s.pyobj_).testBit i ∧
    ((s.set_owns_pyobj b).pyobj_).testBit 0 = b ∧
    (s.set_owns_pyobj b).owns_pyobj = b ∧
    (s.set_owns_pyobj b).unchecked_untagged_pyobj = s.unchecked_untagged_pyobj := by
  have hset : (s.set_owns_pyobj b).pyobj_ =
      (s.pyobj_ &&& NOT_ONE_MASK) ||| (if b then 1 else 0) := rfl
  have hb0 : ((s.set_owns_pyobj b).pyobj_).testBit 0 = b := by
    rw [hset]
    simpa using testBit_set_word s.pyobj_ b 0
  refine ⟨?_, hb0, ?_, ?_⟩
  · rw [hset]
    exact set_word_testBit_high s.pyobj_ b hw i hi
  · rw [Nat.testBit_zero] at hb0
    unfold PyObjectSlot.owns_pyobj
    rw [Nat.and_one_is_mod]
    cases b with
    | false =>
      simp only [decide_eq_false_iff_not] at hb0
      have h0 : (s.set_owns_pyobj false).pyobj_ % 2 = 0 := by omega
      rw [h0]
      rfl
    | true =>
      simp only [decide_eq_true_eq] at hb0
      rw [hb0]
      rfl
  · unfold PyObjectSlot.unchecked_untagged_pyobj
    rw [hset]
    apply Nat.eq_of_testBit_eq
    intro j
    rw [testBit_untagged, testBit_untagged]
    match j with
    | 0 => simp
    | n + 1 =>
      rw [set_word_testBit_high s.pyobj_ b hw (n + 1) (Nat.succ_pos n)]

/-- Witness for C3: word `0x1000`, flag set to `true`, checked at bit 12. -/
theorem C3_set_owns_pyobj_only_flag_bit_witness :
    ((⟨some 7, 0x1000⟩ : PyObjectSlot).set_owns_pyobj true).pyobj_.testBit 12 =
      (⟨some 7, 0x1000⟩ : PyObjectSlot).pyobj_.testBit 12 ∧
    ((⟨some 7, 0x1000⟩ : PyObjectSlot).set_owns_pyobj true).pyobj_.testBit 0 = true ∧
    ((⟨some 7, 0x1000⟩ : PyObjectSlot).set_owns_pyobj true).owns_pyobj = true ∧
    ((⟨some 7, 0x1000⟩ : PyObjectSlot).set_owns_pyobj true).unchecked_untagged_pyobj =
      (⟨some 7, 0x1000⟩ : PyObjectSlot).unchecked_untagged_pyobj :=
  C3_set_owns_pyobj_only_flag_bit ⟨some 7, 0x1000⟩ true 12 (by decide) (by decide)

/-- C4: when the ownership flag is set at destruction and an interpreter is
bound, teardown returns exactly one `decref` call, on the bound interpreter,
with the untagged address (`_unchecked_untagged_pyobj`) and
`has_pyobj_slot = true`, and the resulting state's handle word — address
bits and ownership flag — is 0. -/
theorem C4_owning_teardown_effect (s : PyObjectSlot) (i : Nat)
    (h : s.owns_pyobj = true) (hi : s.pyobj_interpreter_ = some i) :
    s.maybe_destroy_pyobj =
      .ok (⟨s.pyobj_interpreter_, 0⟩, [⟨i, s.unchecked_untagged_pyobj, true⟩]) ∧
    (⟨s.pyobj_interpreter_, 0⟩ : PyObjectSlot).pyobj_ = 0 ∧
    (⟨s.pyobj_interpreter_, 0⟩ : PyObjectSlot).owns_pyobj = false :=
  ⟨maybe_destroy_owning s i h hi, rfl, owns_of_zero_word _ rfl⟩

/-- Witness for C4, the spec's Scenario B: capability 3, address `0x1000`,
flag set, destroy → `decref(0x1000, true)` once and the word ends 0. -/
theorem C4_owning_teardown_effect_witness :
    (⟨some 3, 0x1001⟩ : PyObjectSlot).maybe_destroy_pyobj =
      .ok (⟨(⟨some 3, 0x1001⟩ : PyObjectSlot).pyobj_interpreter_, 0⟩,
           [⟨3, (⟨some 3, 0x1001⟩ : PyObjectSlot).unchecked_untagged_pyobj, true⟩]) ∧
    (⟨(⟨some 3, 0x1001⟩ : PyObjectSlot).pyobj_interpreter_, 0⟩ : PyObjectSlot).pyobj_ = 0 ∧
    (⟨(⟨some 3, 0x1001⟩ : PyObjectSlot).pyobj_interpreter_, 0⟩ : PyObjectSlot).owns_pyobj
      = false :=
  C4_owning_teardown_effect ⟨some 3, 0x1001⟩ 3 (by decide) rfl

/-- C5: `load_pyobj_interpreter` fails (with the no-interpreter-bound
error) if and only if `pyobj_interpreter()` would return none at that
instant; when an interpreter is bound it returns that same interpreter; and
in either case the operation modifies no slot state and issues no call. -/
theorem C5_load_interpreter_fail_iff (s : PyObjectSlot) :
    ((∃ e, s.load_pyobj_interpreter = .error e) ↔ s.pyobj_interpreter = none) ∧
    (∀ i, s.pyobj_interpreter = some i → s.load_pyobj_interpreter = .ok i) ∧
    (∀ r, stepOp s SlotOp.opLoadPyobjInterpreter = .ok r → r = (s, [])) := by
  cases hi : s.pyobj_interpreter_ with
  | none =>
    have hl : s.load_pyobj_interpreter =
        .error "cannot access PyObject for Tensor - no interpreter set" := by
      unfold PyObjectSlot.load_pyobj_interpreter
      rw [hi]
    refine ⟨⟨fun _ => ?_, fun _ => ⟨_, hl⟩⟩, ?_, ?_⟩
    · unfold PyObjectSlot.pyobj_interpreter
      exact hi
    · intro i hsome
      unfold PyObjectSlot.pyobj_interpreter at hsome
      rw [hi] at hsome
      cases hsome
    · intro r hr
      unfold stepOp at hr
      rw [hl] at hr
      cases hr
  | some i0 =>
    have hl : s.load_pyobj_interpreter = .ok i0 := by
      unfold PyObjectSlot.load_pyobj_interpreter
      rw [hi]
    refine ⟨⟨?_, ?_⟩, ?_, ?_⟩
    · rintro ⟨e, he⟩
      rw [hl] at he
      cases he
    · intro hnone
      unfold PyObjectSlot.pyobj_interpreter at hnone
      rw [hi] at hnone
      cases hnone
    · intro i hsome
      unfold PyObjectSlot.pyobj_interpreter at hsome
      rw [hi] at hsome
      cases hsome
      exact hl
    · intro r hr
      unfold stepOp at hr
      rw [hl] at hr
      cases hr
      rfl

/-- C6: capability immutability (frame).  Any run of the operations defined
in this unit leaves `pyobj_interpreter_` unchanged; hence once
`pyobj_interpreter()` returns a non-null interpreter, it returns that same
interpreter after any sequence of these operations. -/
theorem C6_capability_immutable (s s' : PyObjectSlot) (ops : List SlotOp)
    (calls : List DecrefCall) (hrun : runOps s ops = .ok (s', calls)) :
    s'.pyobj_interpreter_ = s.pyobj_interpreter_ ∧
    (∀ i, s.pyobj_interpreter = some i → s'.pyobj_interpreter = some i) := by
  have hp := runOps_preserves_interpreter ops s s' calls hrun
  refine ⟨hp, fun i hi => ?_⟩
  unfold PyObjectSlot.pyobj_interpreter at hi ⊢
  rw [hp]
  exact hi

/-- Witness for C6 on a four-operation run ending in an owning teardown. -/
theorem C6_capability_immutable_witness :
    (⟨some 7, 0⟩ : PyObjectSlot).pyobj_interpreter_ =
      (⟨some 7, 0x1000⟩ : PyObjectSlot).pyobj_interpreter_ ∧
    (∀ i, (⟨some 7, 0x1000⟩ : PyObjectSlot).pyobj_interpreter = some i →
      (⟨some 7, 0⟩ : PyObjectSlot).pyobj_interpreter = some i) :=
  C6_capability_immutable ⟨some 7, 0x1000⟩ ⟨some 7, 0⟩
    [SlotOp.opSetOwnsPyobj true, SlotOp.opOwnsPyobj, SlotOp.opMaybeDestroyPyobj,
     SlotOp.opLoadPyobjInterpreter] [⟨7, 0x1000, true⟩] rfl

/-- C7: `_unchecked_untagged_pyobj` returns the handle word with the
ownership bit (bit 0) masked off — its result is even and agrees with the
word on every higher bit — it always succeeds (even on a zero/unset
address), and it modifies no slot state. -/
theorem C7_untagged_masks_only_bit0 (s : PyObjectSlot) (i : Nat)
    (hw : s.pyobj_ < 2 ^ 64) (hi : 0 < i) :
    s.unchecked_untagged_pyobj % 2 = 0 ∧
    (s.unchecked_untagged_pyobj).testBit i = (s.pyobj_).testBit i ∧
    stepOp s SlotOp.opUncheckedUntaggedPyobj = .ok (s, []) :=
  ⟨untagged_even s.pyobj_, untagged_testBit_high s.pyobj_ hw i hi, rfl⟩

/-- Witness for C7 at the zero-address owning word 1, checked at bit 3. -/
theorem C7_untagged_masks_only_bit0_witness :
    (⟨none, 1⟩ : PyObjectSlot).unchecked_untagged_pyobj % 2 = 0 ∧
    (⟨none, 1⟩ : PyObjectSlot).unchecked_untagged_pyobj.testBit 3 =
      (⟨none, 1⟩ : PyObjectSlot).pyobj_.testBit 3 ∧
    stepOp ⟨none, 1⟩ SlotOp.opUncheckedUntaggedPyobj = .ok (⟨none, 1⟩, []) :=
  C7_untagged_masks_only_bit0 ⟨none, 1⟩ 3 (by decide) (by decide)

/-- C8: the teardown's non-zero assertion is on the whole packed word, not
the address bits: with word = 1 (flag set, address bits all zero) and a
bound interpreter, the slot owns, the asserted word is non-zero, both
assertions pass, and `decref` is invoked with the null (0) address. -/
theorem C8_assert_checks_whole_word (s : PyObjectSlot) (i : Nat)
    (hs : s.pyobj_ = 1) (hi : s.pyobj_interpreter_ = some i) :
    s.owns_pyobj = true ∧
    s.pyobj_ ≠ 0 ∧
    s.unchecked_untagged_pyobj = 0 ∧
    s.maybe_destroy_pyobj = .ok (⟨some i, 0⟩, [⟨i, 0, true⟩]) := by
  have howns : s.owns_pyobj = true := by
    unfold PyObjectSlot.owns_pyobj
    rw [hs]
    rfl
  have hunt : s.unchecked_untagged_pyobj = 0 := by
    unfold PyObjectSlot.unchecked_untagged_pyobj
    rw [hs]
    decide
  refine ⟨howns, by rw [hs]; exact one_ne_zero, hunt, ?_⟩
  rw [maybe_destroy_owning s i howns hi, hunt, hi]

/-- Witness for C8: interpreter 9 bound, word exactly 1. -/
theorem C8_assert_checks_whole_word_witness :
    (⟨some 9, 1⟩ : PyObjectSlot).owns_pyobj = true ∧
    (⟨some 9, 1⟩ : PyObjectSlot).pyobj_ ≠ 0 ∧
    (⟨some 9, 1⟩ : PyObjectSlot).unchecked_untagged_pyobj = 0 ∧
    (⟨some 9, 1⟩ : PyObjectSlot).maybe_destroy_pyobj =
      .ok (⟨some 9, 0⟩, [⟨9, 0, true⟩]) :=
  C8_assert_checks_whole_word ⟨some 9, 1⟩ 9 rfl rfl

/-- C9: `set_owns_pyobj` is idempotent — applying it twice with the same
`b` equals applying it once, and when the ownership bit already equals `b`
the call leaves the (64-bit) handle word exactly unchanged. -/
theorem C9_set_owns_pyobj_idempotent (s : PyObjectSlot) (b : Bool)
    (hw : s.pyobj_ < 2 ^ 64) :
    (s.set_owns_pyobj b).set_owns_pyobj b = s.set_owns_pyobj b ∧
    (s.owns_pyobj = b → s.set_owns_pyobj b = s) := by
  constructor
  · have hword : (((s.pyobj_ &&& NOT_ONE_MASK) ||| (if b then 1 else 0)) &&&
        NOT_ONE_MASK) ||| (if b then 1 else 0) =
        (s.pyobj_ &&& NOT_ONE_MASK) ||| (if b then 1 else 0) := by
      apply Nat.eq_of_testBit_eq
      intro j
      match j with
      | 0 =>
        simp only [testBit_set_word]
        simp
      | n + 1 =>
        simp only [testBit_set_word, if_neg (Nat.succ_ne_zero n)]
        cases hx : s.pyobj_.testBit (n + 1) <;>
          cases hd : decide (n + 1 < 64) <;> simp [hx, hd]
    exact congrArg (PyObjectSlot.mk s.pyobj_interpreter_) hword
  · intro hob
    have hmod : (if b then 1 else 0 : Nat) = s.pyobj_ % 2 := by
      unfold PyObjectSlot.owns_pyobj at hob
      rw [Nat.and_one_is_mod] at hob
      rcases Nat.mod_two_eq_zero_or_one s.pyobj_ with h2 | h2 <;>
        rw [h2] <;> rw [h2] at hob <;> simp at hob <;> subst hob <;> rfl
    have hword : (s.pyobj_ &&& NOT_ONE_MASK) ||| (if b then 1 else 0) = s.pyobj_ := by
      rw [hmod, ← Nat.and_one_is_mod]
      exact word_decomp s.pyobj_ hw
    exact congrArg (PyObjectSlot.mk s.pyobj_interpreter_) hword

/-- Witness for C9: word `0x1000` (flag clear), `b = false`. -/
theorem C9_set_owns_pyobj_idempotent_witness :
    (((⟨some 7, 0x1000⟩ : PyObjectSlot).set_owns_pyobj false).set_owns_pyobj false =
      (⟨some 7, 0x1000⟩ : PyObjectSlot).set_owns_pyobj false) ∧
    ((⟨some 7, 0x1000⟩ : PyObjectSlot).owns_pyobj = false →
      (⟨some 7, 0x1000⟩ : PyObjectSlot).set_owns_pyobj false =
        (⟨some 7, 0x1000⟩ : PyObjectSlot)) :=
  C9_set_owns_pyobj_idempotent ⟨some 7, 0x1000⟩ false (by decide)

/-- For a 64-bit word the slot's packed handle is recovered from its two
public reads: untagged address bits or-ed with the ownership bit. -/
theorem decomp_of_lt (s : PyObjectSlot) (hw : s.pyobj_ < 2 ^ 64) :
    s.pyobj_ = s.unchecked_untagged_pyobj ||| (if s.owns_pyobj then 1 else 0) := by
  have hmod : (if s.owns_pyobj then 1 else 0 : Nat) = s.pyobj_ &&& 1 := by
    unfold PyObjectSlot.owns_pyobj
    rw [Nat.and_one_is_mod]
    rcases Nat.mod_two_eq_zero_or_one s.pyobj_ with h2 | h2 <;> rw [h2] <;> rfl
  rw [hmod]
  exact (word_decomp s.pyobj_ hw).symm

/-- Every step keeps the packed word inside 64 bits. -/
theorem stepOp_pyobj_lt (s s' : PyObjectSlot) (op : SlotOp)
    (calls : List DecrefCall) (hw : s.pyobj_ < 2 ^ 64)
    (hstep : stepOp s op = .ok (s', calls)) : s'.pyobj_ < 2 ^ 64 := by
  cases op with
  | opMaybeDestroyPyobj =>
    rcases maybe_destroy_spec s s' calls hstep with ⟨_, hss, _⟩ | ⟨_, i, _, hss, _⟩ <;>
      rw [hss]
    · exact hw
    · show (0 : Nat) < 2 ^ 64
      decide
  | opPyobjInterpreter => cases hstep; exact hw
  | opUncheckedUntaggedPyobj => cases hstep; exact hw
  | opLoadPyobjInterpreter =>
    unfold stepOp at hstep
    cases hl : s.load_pyobj_interpreter with
    | ok i => rw [hl] at hstep; cases hstep; exact hw
    | error e => rw [hl] at hstep; cases hstep
  | opOwnsPyobj => cases hstep; exact hw
  | opSetOwnsPyobj b =>
    cases hstep
    show (s.pyobj_ &&& NOT_ONE_MASK) ||| (if b then 1 else 0) < 2 ^ 64
    apply Nat.or_lt_two_pow
    · exact Nat.lt_of_le_of_lt Nat.and_le_right (by decide)
    · cases b <;> decide

/-- C10: decomposition invariant.  For a (64-bit) slot state the packed
handle word equals `_unchecked_untagged_pyobj` or-ed with the ownership bit
reported by `owns_pyobj`; every slot operation preserves both the 64-bit
bound and this decomposition, and the value `_unchecked_untagged_pyobj`
reports always has bit 0 clear. -/
theorem C10_word_decomposition (s s' : PyObjectSlot) (op : SlotOp)
    (calls : List DecrefCall) (hw : s.pyobj_ < 2 ^ 64)
    (hstep : stepOp s op = .ok (s', calls)) :
    s.pyobj_ = s.unchecked_untagged_pyobj ||| (if s.owns_pyobj then 1 else 0) ∧
    s'.pyobj_ < 2 ^ 64 ∧
    s'.pyobj_ = s'.unchecked_untagged_pyobj ||| (if s'.owns_pyobj then 1 else 0) ∧
    s'.unchecked_untagged_pyobj &&& 1 = 0 := by
  have hlt := stepOp_pyobj_lt s s' op calls hw hstep
  refine ⟨decomp_of_lt s hw, hlt, decomp_of_lt s' hlt, ?_⟩
  rw [Nat.and_one_is_mod]
  exact untagged_even s'.pyobj_

/-- Witness for C10: setting the ownership flag on word `0x1000`. -/
theorem C10_word_decomposition_witness :
    (⟨some 7, 0x1000⟩ : PyObjectSlot).pyobj_ =
      (⟨some 7, 0x1000⟩ : PyObjectSlot).unchecked_untagged_pyobj |||
        (if (⟨some 7, 0x1000⟩ : PyObjectSlot).owns_pyobj then 1 else 0) ∧
    (⟨some 7, 0x1001⟩ : PyObjectSlot).pyobj_ < 2 ^ 64 ∧
    (⟨some 7, 0x1001⟩ : PyObjectSlot).pyobj_ =
      (⟨some 7, 0x1001⟩ : PyObjectSlot).unchecked_untagged_pyobj |||
        (if (⟨some 7, 0x1001⟩ : PyObjectSlot).owns_pyobj then 1 else 0) ∧
    (⟨some 7, 0x1001⟩ : PyObjectSlot).unchecked_untagged_pyobj &&& 1 = 0 :=
  C10_word_decomposition ⟨some 7, 0x1000⟩ ⟨some 7, 0x1001⟩
    (SlotOp.opSetOwnsPyobj true) [] (by decide) rfl

end PyObjectSlotModel
